import Mathlib

/-
Verification of the ue5osc client (src/ue5osc/__init__.py), a thin OSC/UDP
client driving an Unreal Engine 5 environment.

Shallow embedding conventions:
- Python floats are modelled as exact rationals (only negation, tuple passing
  and equality occur; no rounding is exercised by the code under study).
- An outbound `client.send_message(address, value)` is modelled as an
  OSCMessage whose argument list wraps a bare float into a one-element list,
  a Python list of floats into a list of float args, and a string into a
  one-element string arg list (pythonosc wire building).
- Each operation of the Communicator class becomes a function from the
  Communicator state to the new state together with the list of datagrams
  sent by that call, plus the returned value where the method returns one.
- `pathlib.Path(directory)` rendering is modelled by `pathRender`,
  parametrised over the host OS: pathlib parses on the OS separators
  (on Windows both the forward slash and the backslash; on POSIX only the
  forward slash) and `str()` re-renders components joined by the native
  separator (backslash on Windows). We model simple relative paths, which is
  exactly faithful on the concrete inputs used below.
- Request/reply calls go through `send_and_wait`, which blocks on
  `OSCMessageReceiver.wait_for_response`.
-/

namespace Ue5osc

/-- Host operating system, distinguishing path separator conventions. -/
inductive OS
  | posix
  | windows
  deriving DecidableEq

/-- Native path separator used by str() of a pathlib Path on each OS. -/
def sepChar : OS → Char
  | OS.posix => '/'
  | OS.windows => '\\'

/-- Which characters pathlib treats as separators when parsing on each OS. -/
def isSepChar (os : OS) (c : Char) : Bool :=
  c == '/' || (os == OS.windows && c == '\\')

/-- Split a character list at separator characters (groups may be empty). -/
def splitPath (os : OS) : List Char → List (List Char)
  | [] => [[]]
  | c :: cs =>
    if isSepChar os c then [] :: splitPath os cs
    else
      match splitPath os cs with
      | [] => [[c]]
      | g :: gs => (c :: g) :: gs

/-- Join character groups with a separator character. -/
def joinWithSep (c : Char) : List (List Char) → List Char
  | [] => []
  | [g] => g
  | g :: gs => g ++ c :: joinWithSep c gs

/-- str(pathlib.Path(s)) for a simple relative path: parse on the OS
separators, drop empty components, rejoin with the native separator. -/
def pathRender (os : OS) (s : String) : String :=
  String.mk (joinWithSep (sepChar os) ((splitPath os s.data).filter (fun g => g ≠ [])))

/-- Python f-string formatting with format spec 06 on a nonnegative integer:
the decimal digits, left-padded with zeros to a minimum width of six. -/
def format06 (n : ℕ) : String :=
  String.mk (List.replicate (6 - (Nat.repr n).length) ('0')) ++ Nat.repr n

/-- One argument of an OSC datagram as put on the wire. -/
inductive OSCArg
  | float (value : ℚ)
  | str (value : String)
  deriving DecidableEq

/-- One outbound OSC datagram: address pattern plus typed argument list. -/
structure OSCMessage where
  address : String
  args : List OSCArg
  deriving DecidableEq

/-- A decoded reply value delivered by the response latch: the project-name
string, or a triple of floats (location or rotation). -/
inductive OSCValue
  | str (value : String)
  | floats3 (a b c : ℚ)
  deriving DecidableEq

/-- State of the background OSC server (BlockingOSCUDPServer plus the
threading.Thread running serve_forever). `socket_open` is true while the UDP
socket the server bound at construction remains open; `serving` is true while
the serve_forever loop runs. socketserver's shutdown() stops the loop and
waits for it to exit but does not close the socket — only server_close()
closes it; Thread.join() blocks the caller until the thread terminates,
after which the thread is joined (no running background thread remains). -/
structure Listener where
  shutdown_requested : Bool
  serving : Bool
  joined : Bool
  socket_open : Bool
  deriving DecidableEq

/-- server.shutdown(): requests stop and waits until serve_forever exits.
The listening socket is left open (closing it is server_close's job). -/
def Listener.shutdown (l : Listener) : Listener :=
  { l with shutdown_requested := true, serving := false }

/-- server.server_close(): closes the listening socket. The source never
calls this; it is modelled to state what close_osc does not do. -/
def Listener.server_close (l : Listener) : Listener :=
  { l with socket_open := false }

/-- server_thread.join(): blocks until the thread terminates; afterwards the
thread is joined. -/
def Listener.join (l : Listener) : Listener :=
  { l with joined := true }

/-- State of a Communicator instance: the fields set in __init__ plus the
`file_path` attribute that request_image creates. -/
structure Communicator where
  os : OS
  path : String
  img_number : ℕ
  ip : String
  client_port : ℕ
  server_port : ℕ
  listener : Listener
  file_path : Option String
  deriving DecidableEq

/-- Communicator.__init__: stores Path(directory), zeroes img_number, records
the endpoint fields and starts the server thread (init_osc). -/
def Communicator.init (os : OS) (ip : String) (client_port server_port : ℕ)
    (directory : String) : Communicator :=
  { os := os
    path := pathRender os directory
    img_number := 0
    ip := ip
    client_port := client_port
    server_port := server_port
    listener := { shutdown_requested := false, serving := true, joined := false,
                  socket_open := true }
    file_path := none }

/-- send_and_wait: sends the dummy float 0.0 to the given address, then
blocks on the response latch and returns the delivered value.
Modelled from the spec: OSCMessageReceiver.wait_for_response lives in
ue5osc/osc_dispatcher.py, which is not under src/; per spec section 4.2 it
returns the value the latch delivers, embedded here as the `reply`
parameter supplied by the environment. -/
def send_and_wait (c : Communicator) (osc_address : String) (reply : OSCValue) :
    Communicator × List OSCMessage × OSCValue :=
  (c, [{ address := osc_address, args := [OSCArg.float 0] }], reply)

/-- get_project_name: request/reply on /get/project. -/
def get_project_name (c : Communicator) (reply : OSCValue) :
    Communicator × List OSCMessage × OSCValue :=
  send_and_wait c ("/get/project") reply

/-- get_player_location: request/reply on /get/location. -/
def get_player_location (c : Communicator) (reply : OSCValue) :
    Communicator × List OSCMessage × OSCValue :=
  send_and_wait c ("/get/location") reply

/-- get_player_rotation: request/reply on /get/rotation. -/
def get_player_rotation (c : Communicator) (reply : OSCValue) :
    Communicator × List OSCMessage × OSCValue :=
  send_and_wait c ("/get/rotation") reply

/-- set_player_location: one-way send of [x, y, z] to /set/location. -/
def set_player_location (c : Communicator) (x y z : ℚ) :
    Communicator × List OSCMessage :=
  (c, [{ address := "/set/location",
         args := [OSCArg.float x, OSCArg.float y, OSCArg.float z] }])

/-- set_player_yaw: reads the current rotation via get_player_rotation,
unpacks the reply as (ue_roll, ue_pitch, _) — a Python 3-tuple unpack, which
raises unless the reply is a triple, modelled by Option — and sends
[ue_pitch, ue_roll, yaw] to /set/rotation. -/
def set_player_yaw (c : Communicator) (rotReply : OSCValue) (yaw : ℚ) :
    Option (Communicator × List OSCMessage) :=
  match get_player_rotation c rotReply with
  | (c1, msgs, OSCValue.floats3 ue_roll ue_pitch _) =>
      some (c1, msgs ++
        [{ address := "/set/rotation",
           args := [OSCArg.float ue_pitch, OSCArg.float ue_roll, OSCArg.float yaw] }])
  | _ => none

/-- move_forward: one-way send of float(amount) to /move/forward. -/
def move_forward (c : Communicator) (amount : ℚ) : Communicator × List OSCMessage :=
  (c, [{ address := "/move/forward", args := [OSCArg.float amount] }])

/-- turn_left: one-way send of float(degree) to /turn/left. -/
def turn_left (c : Communicator) (degree : ℚ) : Communicator × List OSCMessage :=
  (c, [{ address := "/turn/left", args := [OSCArg.float degree] }])

/-- turn_right: one-way send of float(degree) to /turn/right. -/
def turn_right (c : Communicator) (degree : ℚ) : Communicator × List OSCMessage :=
  (c, [{ address := "/turn/right", args := [OSCArg.float degree] }])

/-- move_backward: one-way send of float(-amount) to /move/forward. -/
def move_backward (c : Communicator) (amount : ℚ) : Communicator × List OSCMessage :=
  (c, [{ address := "/move/forward", args := [OSCArg.float (-amount)] }])

/-- save_image: increments img_number, then sends the string
f-string of self.path, a forward slash, and the incremented counter
formatted with 06, to /save/image (the trailing sleep is a pure delay). -/
def save_image (c : Communicator) : Communicator × List OSCMessage :=
  ({ c with img_number := c.img_number + 1 },
   [{ address := "/save/image",
      args := [OSCArg.str (c.path ++ "/" ++ format06 (c.img_number + 1))] }])

/-- request_image: sets self.file_path to self.path / formatted img_number
(pathlib join, native separator) and opens the image there; PIL.Image.open
is external I/O, modelled by returning the path that is read. -/
def request_image (c : Communicator) : Communicator × String :=
  ({ c with file_path := some (c.path ++ String.mk [sepChar c.os] ++ format06 c.img_number) },
   c.path ++ String.mk [sepChar c.os] ++ format06 c.img_number)

/-- show: plots request_image's result; matplotlib is external, so the model
is the request_image call it makes. -/
def show_image (c : Communicator) : Communicator × String :=
  request_image c

/-- take_screenshot: one-way send of the filename string to /screenshot. -/
def take_screenshot (c : Communicator) (filename : String) :
    Communicator × List OSCMessage :=
  (c, [{ address := "/screenshot", args := [OSCArg.str filename] }])

/-- reset_to_start: one-way send of 0.0 to /reset (the sleep is a delay). -/
def reset_to_start (c : Communicator) : Communicator × List OSCMessage :=
  (c, [{ address := "/reset", args := [OSCArg.float 0] }])

/-- close_osc: server.shutdown() then server_thread.join(). Note that
server.server_close() is never called, so the listening socket stays open. -/
def close_osc (c : Communicator) : Communicator :=
  { c with listener := Listener.join (Listener.shutdown c.listener) }

/-- __exit__(exc_type, exc_value, traceback): unconditionally calls
close_osc, ignoring the exception information (none models a normal exit,
some an exceptional one). -/
def exit_scope (c : Communicator) (exc : Option String) : Communicator :=
  close_osc c

/-- State after k successive save_image calls. -/
def iterateSave (c : Communicator) : ℕ → Communicator
  | 0 => c
  | k + 1 => (save_image (iterateSave c k)).1

/-- The datagrams sent by the N-th save_image call (N counted from 1). -/
def nthSaveMsgs (c : Communicator) (N : ℕ) : List OSCMessage :=
  (save_image (iterateSave c (N - 1))).2

/-- The sequence number (img_number) after the N-th save_image call. -/
def nthSeq (c : Communicator) (N : ℕ) : ℕ :=
  (iterateSave c N).img_number

/-- The messages of a trace addressed to a given address pattern. -/
def msgsTo (addr : String) (msgs : List OSCMessage) : List OSCMessage :=
  msgs.filter (fun m => m.address == addr)

/-- Decode a 3-float argument list, as an echoing stub engine would when
turning a /set/location datagram back into a location reply. -/
def decodeFloats3 (m : OSCMessage) : Option (ℚ × ℚ × ℚ) :=
  match m.args with
  | [OSCArg.float a, OSCArg.float b, OSCArg.float c] => some (a, b, c)
  | _ => none

/-- The session endpoint configuration: remote host, remote send port,
local receive port, working directory for image artifacts. -/
def config (c : Communicator) : String × ℕ × ℕ × String :=
  (c.ip, c.client_port, c.server_port, c.path)

/-- A sample freshly constructed session on POSIX. -/
def sampleComm : Communicator :=
  Communicator.init OS.posix ("127.0.0.1") 7447 7001 ("imgs")

/-- A sample freshly constructed session on Windows. -/
def sampleCommWin : Communicator :=
  Communicator.init OS.windows ("127.0.0.1") 7447 7001 ("images/out")

theorem iterateSave_img_number (c : Communicator) (k : ℕ) :
    (iterateSave c k).img_number = c.img_number + k := by
  induction k with
  | zero => rfl
  | succ k ih =>
    have h : (iterateSave c (k + 1)).img_number = (iterateSave c k).img_number + 1 := rfl
    omega

theorem iterateSave_path (c : Communicator) (k : ℕ) :
    (iterateSave c k).path = c.path := by
  induction k with
  | zero => rfl
  | succ k ih =>
    have h : (iterateSave c (k + 1)).path = (iterateSave c k).path := rfl
    rw [h, ih]

theorem save_image_snd (c : Communicator) :
    (save_image c).2 =
      [{ address := "/save/image",
         args := [OSCArg.str (c.path ++ "/" ++ format06 (c.img_number + 1))] }] := rfl

/-- C1: for every rotation reply (a, b, c) delivered for /get/rotation and every
yaw value w, set_player_yaw sends (after the /get/rotation request) exactly one
message to /set/rotation, whose payload is [b, a, w]; the (10, 20, 30) / 45
instance of the claim is the special case a = 10, b = 20, c = 30, w = 45. -/
theorem C1_set_player_yaw_reorders (c : Communicator) (a b d w : ℚ) :
    set_player_yaw c (OSCValue.floats3 a b d) w =
      some (c, [{ address := "/get/rotation", args := [OSCArg.float 0] },
                { address := "/set/rotation",
                  args := [OSCArg.float b, OSCArg.float a, OSCArg.float w] }]) ∧
    msgsTo ("/set/rotation")
        [{ address := "/get/rotation", args := [OSCArg.float 0] },
         { address := "/set/rotation",
           args := [OSCArg.float b, OSCArg.float a, OSCArg.float w] }] =
      [{ address := "/set/rotation",
         args := [OSCArg.float b, OSCArg.float a, OSCArg.float w] }] :=
  ⟨rfl, rfl⟩

/-- C2: on a fresh session (img_number = 0) the N-th save_image call (N ≥ 1)
sends /save/image whose filename part is N zero-padded to six digits
(000001 for the first call), and the sequence numbers across successive
calls are strictly increasing. -/
theorem C2_save_image_sequence (c : Communicator) (h0 : c.img_number = 0) :
    (∀ N : ℕ, 1 ≤ N →
      nthSaveMsgs c N =
        [{ address := "/save/image",
           args := [OSCArg.str (c.path ++ "/" ++ format06 N)] }]) ∧
    (∀ M K : ℕ, M < K → nthSeq c M < nthSeq c K) := by
  constructor
  · intro N hN
    have himg : (iterateSave c (N - 1)).img_number + 1 = N := by
      have h := iterateSave_img_number c (N - 1)
      omega
    show (save_image (iterateSave c (N - 1))).2 = _
    rw [save_image_snd, iterateSave_path, himg]
  · intro M K h
    show (iterateSave c M).img_number < (iterateSave c K).img_number
    rw [iterateSave_img_number, iterateSave_img_number]
    omega

/-- C2 witness: on a concrete fresh session, the first save_image call sends
the sequence number 000001 and the counter strictly increases. -/
theorem C2_save_image_sequence_witness :
    nthSaveMsgs sampleComm 1 =
      [{ address := "/save/image", args := [OSCArg.str ("imgs/000001")] }] ∧
    nthSeq sampleComm 0 < nthSeq sampleComm 1 := by
  have h := C2_save_image_sequence sampleComm rfl
  exact ⟨(h.1 1 (by decide)).trans (by decide), h.2 0 1 (by decide)⟩

/-- C3: for every positive amount, move_backward sends the same wire
message (state, address and single-float payload) as move_forward of the
negated amount. -/
theorem C3_move_backward_equiv (c : Communicator) (amount : ℚ)
    (h : 0 < amount) :
    move_backward c amount = move_forward c (-amount) := rfl

/-- C3 witness: concrete instance at amount = 1. -/
theorem C3_move_backward_equiv_witness :
    move_backward sampleComm 1 = move_forward sampleComm (-1) :=
  C3_move_backward_equiv sampleComm 1 (by norm_num)

/-- C4: set_player_location sends [x, y, z] to /set/location; an echoing
stub decodes exactly (x, y, z) from that datagram; and get_player_location
against that echoed reply returns the same tuple (exactly, hence within any
floating-point tolerance). -/
theorem C4_location_round_trip (c : Communicator) (x y z : ℚ) :
    (set_player_location c x y z).2 =
      [{ address := "/set/location",
         args := [OSCArg.float x, OSCArg.float y, OSCArg.float z] }] ∧
    decodeFloats3
        { address := "/set/location",
          args := [OSCArg.float x, OSCArg.float y, OSCArg.float z] } =
      some (x, y, z) ∧
    (get_player_location (set_player_location c x y z).1
        (OSCValue.floats3 x y z)).2.2 = OSCValue.floats3 x y z :=
  ⟨rfl, rfl, rfl⟩

/-- C5: each request/reply getter sends exactly one outbound message, to its
fixed address, carrying the dummy float payload 0.0, and returns the value
the response latch delivers. -/
theorem C5_request_reply_shape (c : Communicator) (reply : OSCValue) :
    get_project_name c reply =
      (c, [{ address := "/get/project", args := [OSCArg.float 0] }], reply) ∧
    get_player_location c reply =
      (c, [{ address := "/get/location", args := [OSCArg.float 0] }], reply) ∧
    get_player_rotation c reply =
      (c, [{ address := "/get/rotation", args := [OSCArg.float 0] }], reply) :=
  ⟨rfl, rfl, rfl⟩

/-- C6 counterexample: on Windows with working directory "images/out", the
/save/image payload is "images\out/000001" — the Path rendering of the
directory uses the native backslash — which differs from the claimed
forward-slash-only path "images/out/000001" and contains a backslash. -/
theorem C6_counterexample :
    (save_image sampleCommWin).2 =
      [{ address := "/save/image", args := [OSCArg.str ("images\\out/000001")] }] ∧
    ("images\\out/000001" ≠ "images/out" ++ "/" ++ format06 1) ∧
    ("images\\out/000001".data.contains ('\\')) = true := by
  refine ⟨by decide, by decide, by decide⟩

/-- C6 amended: the /save/image payload is str(Path(working directory)) —
rendered with the host OS path conventions, so with backslashes on Windows —
followed by one forward slash, followed by the six-digit zero-padded sequence
number; only the separator before the sequence number is guaranteed to be a
forward slash. -/
theorem C6_save_image_payload (os : OS) (ip : String) (cp sp : ℕ)
    (dir : String) (c : Communicator) :
    (save_image (Communicator.init os ip cp sp dir)).2 =
      [{ address := "/save/image",
         args := [OSCArg.str (pathRender os dir ++ "/" ++ format06 1)] }] ∧
    (save_image c).2 =
      [{ address := "/save/image",
         args := [OSCArg.str (c.path ++ "/" ++ format06 (c.img_number + 1))] }] :=
  ⟨rfl, rfl⟩

/-- C7 counterexample: turn_left transmits a negative argument unchanged —
at degree = -5 the single float put on /turn/left is -5, which is negative,
so the transmitted degrees are not validated to be non-negative. -/
theorem C7_counterexample :
    (turn_left sampleComm (-5)).2 =
      [{ address := "/turn/left", args := [OSCArg.float (-5)] }] ∧
    ¬ (0 : ℚ) ≤ -5 :=
  ⟨rfl, by norm_num⟩

/-- C7 amended: turn_left and turn_right transmit exactly float(degree) on
their fixed addresses with no validation; a negative argument is transmitted
as-is. -/
theorem C7_turn_passthrough (c : Communicator) (degree : ℚ) :
    turn_left c degree =
      (c, [{ address := "/turn/left", args := [OSCArg.float degree] }]) ∧
    turn_right c degree =
      (c, [{ address := "/turn/right", args := [OSCArg.float degree] }]) :=
  ⟨rfl, rfl⟩

/-- C8: every public operation of the session leaves the endpoint
configuration (remote host, remote send port, local receive port, working
directory) unchanged. -/
theorem C8_config_immutable (c : Communicator) (x y z w amount degree : ℚ)
    (addr filename : String) (reply : OSCValue) (exc : Option String) :
    config (send_and_wait c addr reply).1 = config c ∧
    config (get_project_name c reply).1 = config c ∧
    config (get_player_location c reply).1 = config c ∧
    config (get_player_rotation c reply).1 = config c ∧
    config (set_player_location c x y z).1 = config c ∧
    (set_player_yaw c (OSCValue.floats3 x y z) w).map (fun p => config p.1) =
      some (config c) ∧
    config (move_forward c amount).1 = config c ∧
    config (move_backward c amount).1 = config c ∧
    config (turn_left c degree).1 = config c ∧
    config (turn_right c degree).1 = config c ∧
    config (save_image c).1 = config c ∧
    config (request_image c).1 = config c ∧
    config (show_image c).1 = config c ∧
    config (take_screenshot c filename).1 = config c ∧
    config (reset_to_start c).1 = config c ∧
    config (close_osc c) = config c ∧
    config (exit_scope c exc) = config c :=
  ⟨rfl, rfl, rfl, rfl, rfl, rfl, rfl, rfl, rfl, rfl, rfl, rfl, rfl, rfl, rfl,
   rfl, rfl⟩

/-- C9 counterexample: on a freshly constructed session, leaving the scope
normally does stop the loop and join the thread, but the listening UDP
socket bound at construction is still open afterwards — close_osc never
calls server_close() — so scope exit does not leave no leaked socket. -/
theorem C9_counterexample :
    (exit_scope sampleComm none).listener.joined = true ∧
    (exit_scope sampleComm none).listener.serving = false ∧
    (exit_scope sampleComm none).listener.socket_open = true :=
  ⟨rfl, rfl, rfl⟩

/-- C9 amended: leaving the session's scope, normally (exc = none) or
exceptionally (exc = some _), runs close_osc: the serve_forever loop is shut
down and the background receive thread is joined before scope exit
completes, leaving no running background thread — but the listening socket
is not closed (server_close is never called), so its open/closed state is
exactly what it was before the exit and a socket bound at construction
remains open. -/
theorem C9_exit_joins_thread_socket_stays (c : Communicator) (exc : Option String) :
    exit_scope c exc = close_osc c ∧
    (exit_scope c exc).listener.shutdown_requested = true ∧
    (exit_scope c exc).listener.serving = false ∧
    (exit_scope c exc).listener.joined = true ∧
    (exit_scope c exc).listener.socket_open = c.listener.socket_open :=
  ⟨rfl, rfl, rfl, rfl, rfl⟩

/-- C10: save_image increments img_number by exactly one; every other public
operation leaves img_number unchanged; and request_image straight after
save_image sets file_path to the path built from the same sequence number
that save_image just sent. -/
theorem C10_counter_frame (c : Communicator) (x y z w amount degree : ℚ)
    (addr filename : String) (reply : OSCValue) (exc : Option String) :
    (save_image c).1.img_number = c.img_number + 1 ∧
    (send_and_wait c addr reply).1.img_number = c.img_number ∧
    (get_project_name c reply).1.img_number = c.img_number ∧
    (get_player_location c reply).1.img_number = c.img_number ∧
    (get_player_rotation c reply).1.img_number = c.img_number ∧
    (set_player_location c x y z).1.img_number = c.img_number ∧
    (set_player_yaw c (OSCValue.floats3 x y z) w).map
        (fun p => p.1.img_number) = some c.img_number ∧
    (move_forward c amount).1.img_number = c.img_number ∧
    (move_backward c amount).1.img_number = c.img_number ∧
    (turn_left c degree).1.img_number = c.img_number ∧
    (turn_right c degree).1.img_number = c.img_number ∧
    (request_image c).1.img_number = c.img_number ∧
    (show_image c).1.img_number = c.img_number ∧
    (take_screenshot c filename).1.img_number = c.img_number ∧
    (reset_to_start c).1.img_number = c.img_number ∧
    (close_osc c).img_number = c.img_number ∧
    (exit_scope c exc).img_number = c.img_number ∧
    (request_image (save_image c).1).1.file_path =
      some (c.path ++ String.mk [sepChar c.os] ++ format06 (c.img_number + 1)) ∧
    (save_image c).2 =
      [{ address := "/save/image",
         args := [OSCArg.str (c.path ++ "/" ++ format06 (c.img_number + 1))] }] :=
  ⟨rfl, rfl, rfl, rfl, rfl, rfl, rfl, rfl, rfl, rfl, rfl, rfl, rfl, rfl, rfl,
   rfl, rfl, rfl, rfl⟩

end Ue5osc
